import Mathlib

/-!
Verification development for the `functioncache` library
(`functioncache/__init__.py`): a memoization decorator that persists
function return values in a pluggable backend, with optional TTL expiry
and fail-silently error containment.

The Python source is shallowly embedded below:
* association lists model Python dicts / shelve stores,
* `pickle0` models CPython's `pickle.dumps(..., protocol=0)` on the value
  shapes the cache key uses (memo PUT opcodes are elided; the behaviourally
  relevant point is that dict items are emitted in dict iteration order,
  which on Python >= 3.7 is the insertion order),
* `function_with_cache` models one call through the decorator's wrapper,
  with injectable cache-subsystem faults standing for the exceptions the
  `try`/`except` blocks in the source can see,
* `functioncache_decorator_setup` models the `OPEN_DBS` registry logic run
  at decoration time.
-/

set_option autoImplicit false

namespace Functioncache

/-! ### Association lists (model of Python dict / shelve lookup) -/

/-- Lookup in an association list; models `d[k]` / `k in d` on a Python dict. -/
def assocFind {κ α : Type} [DecidableEq κ] : List (κ × α) → κ → Option α
  | [], _ => none
  | (k, v) :: rest, key => if k = key then some v else assocFind rest key

/-- Overwriting store; models `d[k] = v` on a Python dict (a new call with the
same key overwrites rather than appends). -/
def assocPut {κ α : Type} [DecidableEq κ] : List (κ × α) → κ → α → List (κ × α)
  | [], k, v => [(k, v)]
  | (k', v') :: rest, k, v =>
      if k' = k then (k, v) :: rest else (k', v') :: assocPut rest k v

theorem assocFind_assocPut_self {κ α : Type} [DecidableEq κ]
    (l : List (κ × α)) (k : κ) (v : α) :
    assocFind (assocPut l k v) k = some v := by
  induction l with
  | nil => simp [assocPut, assocFind]
  | cons hd tl ih =>
      obtain ⟨k', v'⟩ := hd
      by_cases h : k' = k
      · simp [assocPut, assocFind, h]
      · simp [assocPut, assocFind, h, ih]

theorem assocFind_assocPut_ne {κ α : Type} [DecidableEq κ]
    (l : List (κ × α)) (k k' : κ) (v : α) (h : k' ≠ k) :
    assocFind (assocPut l k v) k' = assocFind l k' := by
  have hne : k ≠ k' := Ne.symm h
  induction l with
  | nil => simp [assocPut, assocFind, hne]
  | cons hd tl ih =>
      obtain ⟨k₀, v₀⟩ := hd
      by_cases h₀ : k₀ = k
      · subst h₀
        simp [assocPut, assocFind, hne]
      · simp [assocPut, assocFind, h₀, ih]

/-! ### Pickle protocol 0 and `_args_key` -/

/-- Python values that can appear as cached function arguments in the model:
integers, strings, tuples, and keyword-argument dicts (keyword names are
strings).  A dict is carried as its item list in dict iteration order, which
on Python >= 3.7 is the insertion order of the keyword arguments at the call
site. -/
inductive PyVal : Type where
  | int (n : Int)
  | str (s : String)
  | tuple (vs : List PyVal)
  | dict (items : List (String × PyVal))

/-- An ASCII single-quote character, written via its code point. -/
def squote : String := String.singleton (Char.ofNat 39)

mutual
/-- Model of CPython `pickle` protocol 0 for the value shapes above.  Opcodes
follow the real ones (`I` int, `S` string, `(`...`t` tuple, `(d`...`s` dict
with items in dict iteration order); memo PUT opcodes (`p0\n` etc.) are
elided, as they do not affect which inputs encode equally here.  The fact the
development relies on is that a dict's items are emitted in iteration order:
`pickle.dumps` performs no key sorting at protocol 0. -/
def pickle0 : PyVal → String
  | .int n => "I" ++ toString n ++ "\n"
  | .str s => "S" ++ squote ++ s ++ squote ++ "\n"
  | .tuple vs => "(" ++ pickle0List vs ++ "t"
  | .dict items => "(d" ++ pickle0Items items

/-- Encodes the members of a tuple in order. -/
def pickle0List : List PyVal → String
  | [] => ""
  | v :: vs => pickle0 v ++ pickle0List vs

/-- Encodes dict items in the order given (Python dict iteration order),
each followed by the SETITEM opcode `s`. -/
def pickle0Items : List (String × PyVal) → String
  | [] => ""
  | (k, v) :: rest => pickle0 (.str k) ++ pickle0 v ++ "s" ++ pickle0Items rest
end

/-- Model of `pickle.dumps(v, protocol=0).decode('ascii')`: the value's
encoding followed by the STOP opcode. -/
def pickle_dumps (v : PyVal) : String := pickle0 v ++ "."

/-- Embedding of `_args_key(function, args, kwargs)`:
`arguments = (args, kwargs)`; `arguments_pickle = pickle.dumps(arguments,
protocol=0).decode('ascii')` (the Python 3 branch of the version check);
`key = function.__name__ + arguments_pickle`. -/
def _args_key (function_name : String) (args : List PyVal)
    (kwargs : List (String × PyVal)) : String :=
  let arguments := PyVal.tuple [PyVal.tuple args, PyVal.dict kwargs]
  let arguments_pickle := pickle_dumps arguments
  function_name ++ arguments_pickle

/-! ### The wrapper: `function_with_cache` -/

/-- Embedding of the namedtuple `_retval = namedtuple('_retval', 'timesig data')`:
a cache entry holding the store-time clock reading and the return value. -/
structure CacheEntry (β : Type) where
  timesig : Int
  data : β
deriving DecidableEq

/-- A module-level cache db (`function._db`): mapping from string keys to
entries, as an association list. -/
def Db (β : Type) : Type := List (String × CacheEntry β)

/-- Fault injection for the cache subsystem: each flag stands for the
corresponding operation raising an exception inside the wrapper's
`try`/`except` blocks (`_args_key` / pickling, `key in function._db`,
`function._db[key]`, `function._db[key] = ...`). -/
structure Faults where
  keyFails : Bool
  containsFails : Bool
  getFails : Bool
  putFails : Bool
deriving DecidableEq

/-- All cache-subsystem operations succeed. -/
def noFaults : Faults := ⟨false, false, false, false⟩

/-- Exceptions a call through the wrapper can surface: an exception from a
cache-subsystem operation (tagged with the operation), or the wrapped
function's own exception, carried unchanged. -/
inductive PyError (ε : Type) : Type where
  | cacheError (op : String)
  | funcError (e : ε)
deriving DecidableEq

/-- Observable result of one call through `function_with_cache`: the value
returned or exception raised, the db state after the call, whether the
wrapped function was invoked, whether the backend `__setitem__` was reached,
and the cache errors logged via `_log_error`. -/
structure CallResult (β ε : Type) where
  outcome : Except (PyError ε) β
  db : Db β
  invoked : Bool
  putAttempted : Bool
  logged : List String

/-- Outcome of the wrapper's first `try` block (key derivation and cache
read). -/
inductive ReadOutcome (β : Type) : Type where
  | hitFresh (data : β)
  | missOrStale
  | cacheErr (op : String)

/-- Embedding of the freshness test
`seconds_of_validity is None or time.time() - rv.timesig < seconds_of_validity`. -/
def isFresh (seconds_of_validity : Option Int) (now timesig : Int) : Bool :=
  match seconds_of_validity with
  | none => true
  | some d => now - timesig < d

/-- The wrapper's first `try` block: derive the key, test
`key in function._db`, read `rv = function._db[key]`, and return `rv.data`
when fresh.  A raised exception in any of those operations yields
`cacheErr` tagged with the operation; a stale entry falls through exactly
like a missing one. -/
def readPhase {β : Type} (seconds_of_validity : Option Int) (faults : Faults)
    (db : Db β) (key : String) (now : Int) : ReadOutcome β :=
  if faults.keyFails then .cacheErr "derive"
  else if faults.containsFails then .cacheErr "contains"
  else
    match assocFind db key with
    | none => .missOrStale
    | some rv =>
        if faults.getFails then .cacheErr "get"
        else if isFresh seconds_of_validity now rv.timesig then .hitFresh rv.data
        else .missOrStale

/-- The wrapper after the first `try` block: `retval = function(*args,
**kwargs)` (its exception, if any, propagates untouched), then the second
`try` block `function._db[key] = _retval(time.time(), retval)`.
`keyBound` is false when the first block raised before `key` was assigned
(a key-derivation failure): evaluating `key` in the store statement then
raises `NameError` before the backend `__setitem__` is reached. -/
def storePhase {β ε : Type} (fail_silently : Bool) (faults : Faults)
    (keyBound : Bool) (key : String) (fres : Except ε β) (tWrite : Int)
    (db : Db β) (logged : List String) : CallResult β ε :=
  match fres with
  | .error e => ⟨.error (.funcError e), db, true, false, logged⟩
  | .ok retval =>
      if keyBound = false then
        if fail_silently then ⟨.ok retval, db, true, false, logged ++ ["NameError"]⟩
        else ⟨.error (.cacheError "NameError"), db, true, false, logged ++ ["NameError"]⟩
      else if faults.putFails then
        if fail_silently then ⟨.ok retval, db, true, true, logged ++ ["put"]⟩
        else ⟨.error (.cacheError "put"), db, true, true, logged ++ ["put"]⟩
      else ⟨.ok retval, assocPut db key ⟨tWrite, retval⟩, true, true, logged⟩

/-- Embedding of one call through `function_with_cache(*args, **kwargs)`.
`fres` is the wrapped function's behaviour on this argument tuple (its
return value, or the exception it raises).  `tRead` and `tWrite` are the two
`time.time()` readings (freshness test and stored timestamp).  Cache errors
are logged (`_log_error`) and re-raised unless `fail_silently`; a read-phase
error under `fail_silently` falls through to invoking the function, with
`key` unbound when the failure was in key derivation. -/
def function_with_cache {β ε : Type} (seconds_of_validity : Option Int)
    (fail_silently : Bool) (faults : Faults) (function_name : String)
    (args : List PyVal) (kwargs : List (String × PyVal)) (fres : Except ε β)
    (tRead tWrite : Int) (db : Db β) : CallResult β ε :=
  let key := _args_key function_name args kwargs
  match readPhase seconds_of_validity faults db key tRead with
  | .hitFresh data => ⟨.ok data, db, false, false, []⟩
  | .missOrStale => storePhase fail_silently faults true key fres tWrite db []
  | .cacheErr op =>
      if fail_silently then
        storePhase fail_silently faults (!faults.keyFails) key fres tWrite db [op]
      else ⟨.error (.cacheError op), db, false, false, [op]⟩

/-- The log entries produced by the read phase alone. -/
def readPhaseLog {β : Type} : ReadOutcome β → List String
  | .cacheErr op => [op]
  | _ => []

/-! ### Cache naming and the per-key file backend -/

/-- Model of Python `str.replace(c, r)` for a one-character pattern `c`, on
the character list: each occurrence of `c` is replaced by `r`, every other
character kept. -/
def pyReplaceCharList (c : Char) (r : List Char) : List Char → List Char
  | [] => []
  | ch :: rest => (if ch = c then r else [ch]) ++ pyReplaceCharList c r rest

/-- Model of Python `str.replace(c, r)` for a one-character pattern. -/
def pyReplaceChar (s : String) (c : Char) (r : String) : String :=
  String.mk (pyReplaceCharList c r.data s.data)

theorem mem_pyReplaceCharList {x c : Char} {r l : List Char}
    (hx : x ∈ pyReplaceCharList c r l) : x ∈ r ∨ (x ∈ l ∧ x ≠ c) := by
  induction l with
  | nil => simp [pyReplaceCharList] at hx
  | cons ch rest ih =>
      simp only [pyReplaceCharList, List.mem_append] at hx
      rcases hx with hx | hx
      · by_cases hc : ch = c
        · simp [hc] at hx
          exact Or.inl hx
        · simp [hc] at hx
          subst hx
          exact Or.inr ⟨List.mem_cons_self _ _, hc⟩
      · rcases ih hx with h | ⟨h₁, h₂⟩
        · exact Or.inl h
        · exact Or.inr ⟨List.mem_cons_of_mem _ h₁, h₂⟩

/-- Embedding of `_get_cache_name(function)`: the function's defining file
(`inspect.getfile(function)`, here the parameter `module_name`), with `<`
replaced by `_lt_` and `>` replaced by `_gt_` (fix for `<string>` or
`<stdin>`), then `.cache` appended. -/
def _get_cache_name (module_name : String) : String :=
  let cache_name := module_name
  let cache_name := pyReplaceChar cache_name '<' "_lt_"
  let cache_name := pyReplaceChar cache_name '>' "_gt_"
  cache_name ++ ".cache"

/-- Embedding of `FileBackend.setup`: `self.dir_name = _get_cache_name(function) + 'd'`. -/
def FileBackend.dir_name (module_name : String) : String :=
  _get_cache_name module_name ++ "d"

/-- Embedding of `FileBackend._get_filename`: `self.dir_name + '/' +
hashlib.sha512(key).hexdigest()`.  The SHA-512 hex digest is passed in as
the collaborator `digest`; its defining property, used in the theorems, is
that every output is 128 hex characters long. -/
def FileBackend.get_filename (module_name : String) (digest : String → String)
    (key : String) : String :=
  FileBackend.dir_name module_name ++ "/" ++ digest key

/-- Stated from the spec's words, for comparison with `_get_cache_name`:
"derived from the function's defining source location string, with reserved
path characters substituted (e.g., `<` and `>` replaced with literal escape
sequences) and a fixed suffix appended to mark it as a cache artifact". -/
def specStoreName (source_location : String) : String :=
  (pyReplaceChar (pyReplaceChar source_location '<' "_lt_") '>' "_gt_") ++ ".cache"

/-- Stated from the spec's words: "per-key backend appends a second fixed
suffix denoting a directory of per-key files". -/
def specPerKeyDir (source_location : String) : String :=
  specStoreName source_location ++ "d"

/-! ### The decoration-time registry (`OPEN_DBS`) -/

/-- State of one `ShelveBackend` object: the shelve it has opened
(`self.shelve = shelve.open(_get_cache_name(function))` in `setup`), or
`none` before any `setup` call.  The shelve is identified by the cache name
it was opened with. -/
structure ShelveBackendState where
  shelve : Option String
deriving DecidableEq

/-- Process-wide state at decoration time: `OPEN_DBS` mapping cache names to
backend object identities, plus a heap giving each backend object's state
(object identity modelled as a `Nat`). -/
structure RegistryState where
  openDBs : List (String × Nat)
  backendHeap : List (Nat × ShelveBackendState)
deriving DecidableEq

/-- Embedding of `ShelveBackend.setup(function)`: rebinds the object's
`shelve` field to the shelve opened under the function's cache name. -/
def ShelveBackend.setup (st : RegistryState) (backendId : Nat)
    (cache_name : String) : RegistryState :=
  { st with backendHeap := assocPut st.backendHeap backendId ⟨some cache_name⟩ }

/-- Embedding of the registry logic run by `functioncache_decorator` when
`function` has no `_db` attribute yet: compute `cache_name =
_get_cache_name(function)`; if `cache_name in OPEN_DBS`, bind the existing
backend; else `backend.setup(function)`, bind `backend`, and store it in
`OPEN_DBS[cache_name]`.  Returns the backend object the function is bound
to, and the updated state. -/
def functioncache_decorator_setup (st : RegistryState) (module_name : String)
    (backendId : Nat) : Nat × RegistryState :=
  let cache_name := _get_cache_name module_name
  match assocFind st.openDBs cache_name with
  | some dbId => (dbId, st)
  | none =>
      let st' := ShelveBackend.setup st backendId cache_name
      (backendId, { st' with openDBs := assocPut st'.openDBs cache_name backendId })

/-- The default `backend=ShelveBackend()` argument of `functioncache` is a
single object created once when the module is imported; every decoration
that omits `backend` passes this same object.  Its object identity in the
model. -/
def defaultShelveBackendId : Nat := 0

/-- Process state at module import: `OPEN_DBS = dict()` is empty, and the
default `ShelveBackend()` exists but has not run `setup` yet. -/
def importTimeState : RegistryState :=
  ⟨[], [(defaultShelveBackendId, ⟨none⟩)]⟩

/-! ### Claims -/

/-- C1 (counterexample): the key deriver is not invariant under keyword
argument order.  The calls `f(a=1, b=2)` and `f(b=2, a=1)` pass kwargs dicts
with different insertion orders, and `_args_key` produces different keys for
them, because `pickle.dumps` at protocol 0 emits dict items in iteration
order without canonicalizing. -/
theorem args_key_kwargs_order_changes_key :
    _args_key "f" [] [("a", PyVal.int 1), ("b", PyVal.int 2)]
      ≠ _args_key "f" [] [("b", PyVal.int 2), ("a", PyVal.int 1)] := by
  simp [_args_key, pickle_dumps, pickle0, pickle0List, pickle0Items, squote]
  decide

/-- C1 (amended): `_args_key` is the pure concatenation of the function's
name with the deterministic protocol-0 encoding of `(args, kwargs)`, so
repeated derivations for the same function, positional arguments, and
keyword arguments in the same insertion order yield identical keys, in any
process run; but keyword arguments are NOT canonicalized before encoding:
there are keyword-argument lists that are permutations of each other
(semantically equal dicts built in different orders) whose keys differ. -/
theorem args_key_deterministic_not_canonicalized :
    (∀ (f : String) (args : List PyVal) (kwargs : List (String × PyVal)),
        _args_key f args kwargs
          = f ++ pickle_dumps (PyVal.tuple [PyVal.tuple args, PyVal.dict kwargs]))
    ∧ (∃ (f : String) (args : List PyVal)
          (kwargs kwargs2 : List (String × PyVal)),
        List.Perm kwargs kwargs2
        ∧ _args_key f args kwargs ≠ _args_key f args kwargs2) := by
  refine ⟨fun f args kwargs => rfl,
    ⟨"f", [], [("a", PyVal.int 1), ("b", PyVal.int 2)],
      [("b", PyVal.int 2), ("a", PyVal.int 1)], List.Perm.swap _ _ _, ?_⟩⟩
  simp [_args_key, pickle_dumps, pickle0, pickle0List, pickle0Items, squote]
  decide

/-- C2: with a working cache (no injected faults), a first call on a missing
key invokes the wrapped function and returns its value, and a second call
with the same arguments whose freshness test passes against the stored
timestamp returns the stored data without invoking the wrapped function —
two calls, at most one invocation. -/
theorem second_call_within_ttl_uses_cache {β : Type} (sov : Option Int)
    (fs : Bool) (f : String) (args : List PyVal)
    (kwargs : List (String × PyVal)) (v : β) (t1 t1w t2 t2w : Int) (db : Db β)
    (hmiss : assocFind db (_args_key f args kwargs) = none)
    (hfresh : isFresh sov t2 t1w = true) :
    (function_with_cache sov fs noFaults f args kwargs (Except.ok (ε := Unit) v)
        t1 t1w db).invoked = true
    ∧ (function_with_cache sov fs noFaults f args kwargs (Except.ok (ε := Unit) v)
        t1 t1w db).outcome = Except.ok v
    ∧ (function_with_cache sov fs noFaults f args kwargs (Except.ok (ε := Unit) v)
        t2 t2w
        (function_with_cache sov fs noFaults f args kwargs (Except.ok (ε := Unit) v)
          t1 t1w db).db).invoked = false
    ∧ (function_with_cache sov fs noFaults f args kwargs (Except.ok (ε := Unit) v)
        t2 t2w
        (function_with_cache sov fs noFaults f args kwargs (Except.ok (ε := Unit) v)
          t1 t1w db).db).outcome = Except.ok v := by
  have h1 : function_with_cache sov fs noFaults f args kwargs
      (Except.ok (ε := Unit) v) t1 t1w db
      = ⟨Except.ok v, assocPut db (_args_key f args kwargs) ⟨t1w, v⟩,
          true, true, []⟩ := by
    simp [function_with_cache, readPhase, storePhase, noFaults, hmiss]
  have h2 : function_with_cache sov fs noFaults f args kwargs
      (Except.ok (ε := Unit) v) t2 t2w
      (assocPut db (_args_key f args kwargs) ⟨t1w, v⟩)
      = ⟨Except.ok v, assocPut db (_args_key f args kwargs) ⟨t1w, v⟩,
          false, false, []⟩ := by
    simp [function_with_cache, readPhase, noFaults, assocFind_assocPut_self,
      hfresh]
  simp [h1, h2]

/-- C2 witness: `square(5)` with TTL 100 on an empty cache — first call at
time 0 invokes and returns 25, second call at time 50 is served from the
cache without invocation. -/
theorem second_call_within_ttl_uses_cache_witness :
    assocFind ([] : Db Nat) (_args_key "square" [PyVal.int 5] []) = none
    ∧ isFresh (some 100) 50 0 = true
    ∧ ((function_with_cache (some 100) false noFaults "square" [PyVal.int 5] []
          (Except.ok (ε := Unit) 25) 0 0 ([] : Db Nat)).invoked = true
      ∧ (function_with_cache (some 100) false noFaults "square" [PyVal.int 5] []
          (Except.ok (ε := Unit) 25) 0 0 ([] : Db Nat)).outcome = Except.ok 25
      ∧ (function_with_cache (some 100) false noFaults "square" [PyVal.int 5] []
          (Except.ok (ε := Unit) 25) 50 50
          (function_with_cache (some 100) false noFaults "square" [PyVal.int 5] []
            (Except.ok (ε := Unit) 25) 0 0 ([] : Db Nat)).db).invoked = false
      ∧ (function_with_cache (some 100) false noFaults "square" [PyVal.int 5] []
          (Except.ok (ε := Unit) 25) 50 50
          (function_with_cache (some 100) false noFaults "square" [PyVal.int 5] []
            (Except.ok (ε := Unit) 25) 0 0 ([] : Db Nat)).db).outcome
          = Except.ok 25) :=
  ⟨rfl, by decide,
    second_call_within_ttl_uses_cache (some 100) false "square" [PyVal.int 5]
      [] 25 0 0 50 50 [] rfl (by decide)⟩

/-- C3: with a stored entry under the call's key and TTL D, a call whose
read-time clock satisfies `now < timestamp + D` returns the cached data with
no invocation and no other effect; a call with `timestamp + D ≤ now`
re-invokes the wrapped function and returns its value; and with TTL null
the entry never expires: the call returns the cached data regardless of the
clock. -/
theorem ttl_expiry_boundary {β : Type} (D : Int) (fs : Bool) (f : String)
    (args : List PyVal) (kwargs : List (String × PyVal)) (rv : CacheEntry β)
    (v : β) (tq tw : Int) (db : Db β)
    (hhit : assocFind db (_args_key f args kwargs) = some rv) :
    (tq < rv.timesig + D →
        function_with_cache (some D) fs noFaults f args kwargs
          (Except.ok (ε := Unit) v) tq tw db
          = ⟨Except.ok rv.data, db, false, false, []⟩)
    ∧ (rv.timesig + D ≤ tq →
        (function_with_cache (some D) fs noFaults f args kwargs
          (Except.ok (ε := Unit) v) tq tw db).invoked = true
        ∧ (function_with_cache (some D) fs noFaults f args kwargs
            (Except.ok (ε := Unit) v) tq tw db).outcome = Except.ok v)
    ∧ function_with_cache none fs noFaults f args kwargs
        (Except.ok (ε := Unit) v) tq tw db
        = ⟨Except.ok rv.data, db, false, false, []⟩ := by
  refine ⟨?_, ?_, ?_⟩
  · intro h
    have hf : isFresh (some D) tq rv.timesig = true := by
      simp [isFresh]; omega
    simp [function_with_cache, readPhase, noFaults, hhit, hf]
  · intro h
    have hf : isFresh (some D) tq rv.timesig = false := by
      simp [isFresh]; omega
    constructor <;>
      simp [function_with_cache, readPhase, storePhase, noFaults, hhit, hf]
  · simp [function_with_cache, readPhase, noFaults, hhit, isFresh]

/-- C3 witness: an entry stored at time 0 with TTL 100 is served from the
cache at read time 50. -/
theorem ttl_expiry_boundary_witness :
    assocFind [(_args_key "f" [] [], (⟨0, 7⟩ : CacheEntry Nat))]
        (_args_key "f" [] []) = some ⟨0, 7⟩
    ∧ (50 : Int) < 0 + 100
    ∧ function_with_cache (some 100) false noFaults "f" [] []
        (Except.ok (ε := Unit) 9) 50 60
        [(_args_key "f" [] [], (⟨0, 7⟩ : CacheEntry Nat))]
        = ⟨Except.ok 7, [(_args_key "f" [] [], ⟨0, 7⟩)], false, false, []⟩ :=
  ⟨by simp [assocFind], by decide,
    (ttl_expiry_boundary 100 false "f" [] [] ⟨0, 7⟩ 9 50 60
      [(_args_key "f" [] [], ⟨0, 7⟩)] (by simp [assocFind])).1 (by decide)⟩

/-- C4: when a cache-subsystem operation raises — any read-phase operation
(key derivation, `contains`, `get`), or the `put` after a miss — then with
`fail_silently=true` the error is logged and suppressed, the wrapped
function is still invoked and its value returned; with `fail_silently=false`
the cache error propagates to the caller. -/
theorem cache_subsystem_errors_contained {β : Type} (sov : Option Int)
    (faults : Faults) (f : String) (args : List PyVal)
    (kwargs : List (String × PyVal)) (v : β) (tq tw : Int) (db : Db β)
    (op : String) :
    (readPhase (β := β) sov faults db (_args_key f args kwargs) tq
        = ReadOutcome.cacheErr op →
      ((function_with_cache sov true faults f args kwargs
          (Except.ok (ε := Unit) v) tq tw db).invoked = true
        ∧ (function_with_cache sov true faults f args kwargs
            (Except.ok (ε := Unit) v) tq tw db).outcome = Except.ok v
        ∧ op ∈ (function_with_cache sov true faults f args kwargs
            (Except.ok (ε := Unit) v) tq tw db).logged)
      ∧ (function_with_cache sov false faults f args kwargs
          (Except.ok (ε := Unit) v) tq tw db).outcome
          = Except.error (PyError.cacheError op))
    ∧ (readPhase (β := β) sov faults db (_args_key f args kwargs) tq
        = ReadOutcome.missOrStale →
      faults.putFails = true →
      ((function_with_cache sov true faults f args kwargs
          (Except.ok (ε := Unit) v) tq tw db).invoked = true
        ∧ (function_with_cache sov true faults f args kwargs
            (Except.ok (ε := Unit) v) tq tw db).outcome = Except.ok v
        ∧ "put" ∈ (function_with_cache sov true faults f args kwargs
            (Except.ok (ε := Unit) v) tq tw db).logged)
      ∧ (function_with_cache sov false faults f args kwargs
          (Except.ok (ε := Unit) v) tq tw db).outcome
          = Except.error (PyError.cacheError "put")) := by
  constructor
  · intro h
    refine ⟨?_, ?_⟩
    · cases hk : faults.keyFails <;> cases hp : faults.putFails <;>
        simp [function_with_cache, h, storePhase, hk, hp]
    · simp [function_with_cache, h]
  · intro h hp
    refine ⟨?_, ?_⟩
    · simp [function_with_cache, h, storePhase, hp]
    · simp [function_with_cache, h, storePhase, hp]

/-- C4 witness: a raising `contains` with `fail_silently=true` is logged and
suppressed and the call still returns the function's value 5; with
`fail_silently=false` the same error propagates. -/
theorem cache_subsystem_errors_contained_witness :
    readPhase (β := Nat) (some 10) ⟨false, true, false, false⟩ []
        (_args_key "f" [] []) 0 = ReadOutcome.cacheErr "contains"
    ∧ (((function_with_cache (some 10) true ⟨false, true, false, false⟩ "f" []
          [] (Except.ok (ε := Unit) 5) 0 0 ([] : Db Nat)).invoked = true
        ∧ (function_with_cache (some 10) true ⟨false, true, false, false⟩ "f"
            [] [] (Except.ok (ε := Unit) 5) 0 0 ([] : Db Nat)).outcome
            = Except.ok 5
        ∧ "contains" ∈ (function_with_cache (some 10) true
            ⟨false, true, false, false⟩ "f" [] [] (Except.ok (ε := Unit) 5)
            0 0 ([] : Db Nat)).logged)
      ∧ (function_with_cache (some 10) false ⟨false, true, false, false⟩ "f"
          [] [] (Except.ok (ε := Unit) 5) 0 0 ([] : Db Nat)).outcome
          = Except.error (PyError.cacheError "contains")) :=
  ⟨rfl,
    (cache_subsystem_errors_contained (some 10) ⟨false, true, false, false⟩
      "f" [] [] 5 0 0 [] "contains").1 rfl⟩

/-- C5: an exception raised by the wrapped function itself is re-raised to
the caller unchanged, under either `fail_silently` setting; it is not
logged: the log holds exactly what the read phase put there, and the db is
untouched. -/
theorem function_errors_propagate_unchanged {β ε : Type} (sov : Option Int)
    (fs : Bool) (faults : Faults) (f : String) (args : List PyVal)
    (kwargs : List (String × PyVal)) (e : ε) (tq tw : Int) (db : Db β)
    (hinv : (function_with_cache sov fs faults f args kwargs
        (Except.error (α := β) e) tq tw db).invoked = true) :
    (function_with_cache sov fs faults f args kwargs (Except.error (α := β) e)
        tq tw db).outcome = Except.error (PyError.funcError e)
    ∧ (function_with_cache sov fs faults f args kwargs
        (Except.error (α := β) e) tq tw db).logged
        = readPhaseLog (readPhase sov faults db (_args_key f args kwargs) tq) := by
  cases hr : readPhase (β := β) sov faults db (_args_key f args kwargs) tq <;>
    cases fs <;>
    simp [function_with_cache, hr, storePhase, readPhaseLog] at hinv ⊢

/-- C5 witness: on an empty cache with no faults, a function raising `()` has
its error surface unchanged and unlogged. -/
theorem function_errors_propagate_unchanged_witness :
    (function_with_cache none false noFaults "f" [] []
        (Except.error (α := Nat) ()) 0 0 ([] : Db Nat)).invoked = true
    ∧ ((function_with_cache none false noFaults "f" [] []
          (Except.error (α := Nat) ()) 0 0 ([] : Db Nat)).outcome
          = Except.error (PyError.funcError ())
      ∧ (function_with_cache none false noFaults "f" [] []
          (Except.error (α := Nat) ()) 0 0 ([] : Db Nat)).logged
          = readPhaseLog (readPhase (β := Nat) none noFaults []
              (_args_key "f" [] []) 0)) :=
  ⟨rfl,
    function_errors_propagate_unchanged none false noFaults "f" [] [] () 0 0
      [] rfl⟩

/-- C6: whenever the wrapped function is invoked — on a miss or stale entry
(under either `fail_silently` setting), or after a suppressed `contains`/
`get` failure (`fail_silently=true`, key derivation succeeded) — the wrapper
afterwards reaches the backend store `function._db[key] = _retval(now,
retval)`; and when that store does not itself fail, the db afterwards holds
the new entry with the write-time clock and the return value. -/
theorem write_attempted_after_invocation {β : Type} (sov : Option Int)
    (faults : Faults) (f : String) (args : List PyVal)
    (kwargs : List (String × PyVal)) (v : β) (tq tw : Int) (db : Db β)
    (op : String) :
    (∀ fs : Bool,
      readPhase (β := β) sov faults db (_args_key f args kwargs) tq
          = ReadOutcome.missOrStale →
      (function_with_cache sov fs faults f args kwargs
          (Except.ok (ε := Unit) v) tq tw db).invoked = true
      ∧ (function_with_cache sov fs faults f args kwargs
          (Except.ok (ε := Unit) v) tq tw db).putAttempted = true
      ∧ (faults.putFails = false →
          (function_with_cache sov fs faults f args kwargs
            (Except.ok (ε := Unit) v) tq tw db).db
            = assocPut db (_args_key f args kwargs) ⟨tw, v⟩))
    ∧ (readPhase (β := β) sov faults db (_args_key f args kwargs) tq
          = ReadOutcome.cacheErr op →
      faults.keyFails = false →
      (function_with_cache sov true faults f args kwargs
          (Except.ok (ε := Unit) v) tq tw db).invoked = true
      ∧ (function_with_cache sov true faults f args kwargs
          (Except.ok (ε := Unit) v) tq tw db).putAttempted = true
      ∧ (faults.putFails = false →
          (function_with_cache sov true faults f args kwargs
            (Except.ok (ε := Unit) v) tq tw db).db
            = assocPut db (_args_key f args kwargs) ⟨tw, v⟩)) := by
  constructor
  · intro fs h
    cases hp : faults.putFails <;> cases fs <;>
      simp [function_with_cache, h, storePhase, hp]
  · intro h hk
    cases hp : faults.putFails <;>
      simp [function_with_cache, h, storePhase, hk, hp]

/-- C6 witness: a miss on the empty cache leads to an invocation followed by
a store of the entry `(7, 42)`. -/
theorem write_attempted_after_invocation_witness :
    readPhase (β := Nat) none noFaults [] (_args_key "f" [] []) 0
        = ReadOutcome.missOrStale
    ∧ ((function_with_cache none false noFaults "f" [] []
          (Except.ok (ε := Unit) 42) 0 7 ([] : Db Nat)).invoked = true
      ∧ (function_with_cache none false noFaults "f" [] []
          (Except.ok (ε := Unit) 42) 0 7 ([] : Db Nat)).putAttempted = true
      ∧ (noFaults.putFails = false →
          (function_with_cache none false noFaults "f" [] []
            (Except.ok (ε := Unit) 42) 0 7 ([] : Db Nat)).db
            = assocPut [] (_args_key "f" [] []) ⟨7, 42⟩)) :=
  ⟨rfl,
    (write_attempted_after_invocation none noFaults "f" [] [] 42 0 7 []
      "contains").1 false rfl⟩

/-- C9: if the wrapped function raises, the wrapper performs no store: the
backend `__setitem__` is never reached and the db after the call — in
particular any pre-existing entry under the call's key — is exactly the db
before it. -/
theorem function_error_leaves_db_unchanged {β ε : Type} (sov : Option Int)
    (fs : Bool) (faults : Faults) (f : String) (args : List PyVal)
    (kwargs : List (String × PyVal)) (e : ε) (tq tw : Int) (db : Db β) :
    (function_with_cache sov fs faults f args kwargs (Except.error (α := β) e)
        tq tw db).db = db
    ∧ (function_with_cache sov fs faults f args kwargs
        (Except.error (α := β) e) tq tw db).putAttempted = false
    ∧ assocFind (function_with_cache sov fs faults f args kwargs
        (Except.error (α := β) e) tq tw db).db (_args_key f args kwargs)
        = assocFind db (_args_key f args kwargs) := by
  cases hr : readPhase (β := β) sov faults db (_args_key f args kwargs) tq <;>
    cases fs <;> simp [function_with_cache, hr, storePhase]

/-- C7: the `OPEN_DBS` registry keeps at most one backend object per cache
name: resolving a name already present returns the existing object and
leaves the state unchanged; resolution never removes entries; a name absent
from the registry is set up on its first resolution (the backend's `setup`
runs, binding its shelve, and the registry records the object); and a second
decoration for the same source file — even with a different backend argument
— is bound to the first decoration's backend object. -/
theorem registry_resolve_contract (st : RegistryState) (m : String)
    (b b2 : Nat) :
    (∀ i : Nat, assocFind st.openDBs (_get_cache_name m) = some i →
        functioncache_decorator_setup st m b = (i, st))
    ∧ (∀ (nm : String) (i : Nat), assocFind st.openDBs nm = some i →
        assocFind (functioncache_decorator_setup st m b).2.openDBs nm = some i)
    ∧ (assocFind st.openDBs (_get_cache_name m) = none →
        (functioncache_decorator_setup st m b).1 = b
        ∧ assocFind (functioncache_decorator_setup st m b).2.openDBs
            (_get_cache_name m) = some b
        ∧ assocFind (functioncache_decorator_setup st m b).2.backendHeap b
            = some ⟨some (_get_cache_name m)⟩)
    ∧ (functioncache_decorator_setup
          (functioncache_decorator_setup st m b).2 m b2).1
        = (functioncache_decorator_setup st m b).1 := by
  refine ⟨?_, ?_, ?_, ?_⟩
  · intro i hi
    simp [functioncache_decorator_setup, hi]
  · intro nm i hi
    cases hfind : assocFind st.openDBs (_get_cache_name m) with
    | some dbId => simp [functioncache_decorator_setup, hfind, hi]
    | none =>
        have hne : nm ≠ _get_cache_name m := by
          intro he
          rw [he, hfind] at hi
          exact Option.noConfusion hi
        simp [functioncache_decorator_setup, hfind, ShelveBackend.setup,
          assocFind_assocPut_ne st.openDBs (_get_cache_name m) nm b hne, hi]
  · intro hnone
    simp [functioncache_decorator_setup, hnone, ShelveBackend.setup,
      assocFind_assocPut_self]
  · cases hfind : assocFind st.openDBs (_get_cache_name m) with
    | some dbId => simp [functioncache_decorator_setup, hfind]
    | none =>
        simp [functioncache_decorator_setup, hfind, ShelveBackend.setup,
          assocFind_assocPut_self]

/-- C7 witness: on the import-time (empty) registry, decorating a function
from `a.py` with backend 3 sets it up and registers it under its cache
name. -/
theorem registry_resolve_contract_witness :
    assocFind importTimeState.openDBs (_get_cache_name "a.py") = none
    ∧ ((functioncache_decorator_setup importTimeState "a.py" 3).1 = 3
      ∧ assocFind (functioncache_decorator_setup importTimeState "a.py"
          3).2.openDBs (_get_cache_name "a.py") = some 3
      ∧ assocFind (functioncache_decorator_setup importTimeState "a.py"
          3).2.backendHeap 3 = some ⟨some (_get_cache_name "a.py")⟩) :=
  ⟨rfl, (registry_resolve_contract importTimeState "a.py" 3 5).2.2.1 rfl⟩

/-- A stand-in for the SHA-512 hex digest collaborator: a function whose
every output has the digest's fixed length of 128 hex characters. -/
def digest128 : String → String := fun _ => String.mk (List.replicate 128 'a')

/-- C8: the persistent store name computed by `_get_cache_name` agrees with
the spec's description (`<`/`>` replaced by the escape sequences `_lt_`/
`_gt_`, fixed suffix `.cache`), the result carries no reserved `<`/`>`
characters, the per-key `FileBackend` appends the second fixed suffix `d`
for its directory, and each entry's filename is the directory, a slash, and
the fixed-length digest of the cache key — 128 hex characters for
SHA-512. -/
theorem persistent_store_naming (m k : String) (digest : String → String)
    (hdig : ∀ s : String, (digest s).length = 128) :
    _get_cache_name m = specStoreName m
    ∧ FileBackend.dir_name m = specPerKeyDir m
    ∧ (∀ x ∈ (_get_cache_name m).data, x ≠ '<' ∧ x ≠ '>')
    ∧ FileBackend.get_filename m digest k
        = FileBackend.dir_name m ++ "/" ++ digest k
    ∧ (FileBackend.get_filename m digest k).length
        = (FileBackend.dir_name m).length + 1 + 128 := by
  refine ⟨rfl, rfl, ?_, rfl, ?_⟩
  · intro x hx
    have hgt : ∀ y ∈ "_gt_".data, y ≠ '<' ∧ y ≠ '>' := by decide
    have hlt : ∀ y ∈ "_lt_".data, y ≠ '<' ∧ y ≠ '>' := by decide
    have hcache : ∀ y ∈ ".cache".data, y ≠ '<' ∧ y ≠ '>' := by decide
    have hdata : (_get_cache_name m).data
        = pyReplaceCharList '>' "_gt_".data
            (pyReplaceCharList '<' "_lt_".data m.data) ++ ".cache".data := rfl
    rw [hdata] at hx
    rcases List.mem_append.mp hx with hx | hx
    · rcases mem_pyReplaceCharList hx with hmem | ⟨hmem, hne⟩
      · exact hgt x hmem
      · rcases mem_pyReplaceCharList hmem with hmem2 | ⟨_, hne2⟩
        · exact ⟨(hlt x hmem2).1, hne⟩
        · exact ⟨hne2, hne⟩
    · exact hcache x hx
  · have h1 : FileBackend.get_filename m digest k
        = (FileBackend.dir_name m ++ "/") ++ digest k := rfl
    have hslash : "/".length = 1 := rfl
    rw [h1, String.length_append, String.length_append, hdig, hslash]

/-- C8 witness: with the stand-in digest, the filename for key `"key"` under
source file `<stdin>` has the directory's length plus 129. -/
theorem persistent_store_naming_witness :
    (digest128 "key").length = 128
    ∧ (FileBackend.get_filename "<stdin>" digest128 "key").length
        = (FileBackend.dir_name "<stdin>").length + 1 + 128 :=
  ⟨rfl,
    (persistent_store_naming "<stdin>" "key" digest128 (fun _ => rfl)).2.2.2.2⟩

/-- C10: the default `backend=ShelveBackend()` is one object, created when
the module is imported; decorating functions from two distinct source files
with that default registers both cache names to the same object in
`OPEN_DBS`, and the second decoration's `setup` rebinds the shared object's
shelve to the second file's cache name. -/
theorem default_shelve_backend_shared (m1 m2 : String)
    (hne : _get_cache_name m1 ≠ _get_cache_name m2) :
    (functioncache_decorator_setup importTimeState m1
        defaultShelveBackendId).1 = defaultShelveBackendId
    ∧ (functioncache_decorator_setup
        (functioncache_decorator_setup importTimeState m1
          defaultShelveBackendId).2 m2 defaultShelveBackendId).1
        = defaultShelveBackendId
    ∧ assocFind (functioncache_decorator_setup
        (functioncache_decorator_setup importTimeState m1
          defaultShelveBackendId).2 m2 defaultShelveBackendId).2.openDBs
        (_get_cache_name m1) = some defaultShelveBackendId
    ∧ assocFind (functioncache_decorator_setup
        (functioncache_decorator_setup importTimeState m1
          defaultShelveBackendId).2 m2 defaultShelveBackendId).2.openDBs
        (_get_cache_name m2) = some defaultShelveBackendId
    ∧ assocFind (functioncache_decorator_setup
        (functioncache_decorator_setup importTimeState m1
          defaultShelveBackendId).2 m2 defaultShelveBackendId).2.backendHeap
        defaultShelveBackendId = some ⟨some (_get_cache_name m2)⟩ := by
  have h1 : functioncache_decorator_setup importTimeState m1 0
      = (0, ⟨[(_get_cache_name m1, 0)],
          [(0, ⟨some (_get_cache_name m1)⟩)]⟩) := by
    simp [functioncache_decorator_setup, importTimeState,
      ShelveBackend.setup, assocFind, assocPut, defaultShelveBackendId]
  have h2 : functioncache_decorator_setup
      (⟨[(_get_cache_name m1, 0)], [(0, ⟨some (_get_cache_name m1)⟩)]⟩ :
        RegistryState) m2 0
      = (0, ⟨[(_get_cache_name m1, 0), (_get_cache_name m2, 0)],
          [(0, ⟨some (_get_cache_name m2)⟩)]⟩) := by
    simp [functioncache_decorator_setup, ShelveBackend.setup, assocFind,
      assocPut, hne]
  simp [defaultShelveBackendId, h1, h2, assocFind, hne, Ne.symm hne]

/-- C10 witness: decorating functions from `a.py` then `b.py` with the
default backend leaves the one shared object's shelve bound to `b.py`'s
cache name. -/
theorem default_shelve_backend_shared_witness :
    _get_cache_name "a.py" ≠ _get_cache_name "b.py"
    ∧ assocFind (functioncache_decorator_setup
        (functioncache_decorator_setup importTimeState "a.py"
          defaultShelveBackendId).2 "b.py" defaultShelveBackendId).2.backendHeap
        defaultShelveBackendId = some ⟨some (_get_cache_name "b.py")⟩ :=
  ⟨by decide,
    (default_shelve_backend_shared "a.py" "b.py" (by decide)).2.2.2.2⟩

end Functioncache
